import Mathlib

/-!
Verification of unsupported/Eigen/CXX11/src/Tensor/TensorDeviceGpu.h.

The header is a thin device-management layer over a vendor GPU runtime
(CUDA or HIP, unified behind the gpu* alias macros).  We embed it
shallowly: every vendor runtime call is modelled by explicit state
passing over a `GpuRuntime` record that carries the observable effects
(device count, current device, a bump allocator for gpuMalloc, counters
for frees and asynchronous memsets/memcpys, and the status each runtime
entry point will report).  The C assert macro is modelled by `cAssert`,
which aborts with `Except.error` exactly when asserts are compiled in;
the compile-time configuration (`CompileConfig`) records which
preprocessor branches of the header are active.  Under
EIGEN_HIP_DEVICE_COMPILE the header redefines assert(COND) to expand to
nothing, which corresponds to `assertsActive = false`.

The one concurrent algorithm in the header, `initializeDeviceProp`, is
embedded as an interleaving transition system (`InitStep`) over a shared
state (`InitState`) plus one program counter per thread, following the
source line by line; the C++11 release/acquire fences are sound under the
sequentially consistent interleaving semantics used here, where the
fence itself is a no-op and publication order is program order.
-/

namespace Eigen

/-- Vendor-neutral GPU runtime status codes of the alias layer
(gpuError_t, with the two distinguished sentinels gpuSuccess and
gpuErrorNotReady; every other vendor code is collapsed into
`gpuErrorOther`). -/
inductive gpuError_t where
  | gpuSuccess
  | gpuErrorNotReady
  | gpuErrorOther (code : Nat)
deriving DecidableEq, Repr

/-- Compile-time configuration: which preprocessor branches of the
header are active.  `assertsActive` is false exactly when
EIGEN_HIP_DEVICE_COMPILE is defined, because the header then redefines
assert(COND) to expand to nothing.  `gpucc` models EIGEN_GPUCC and
`gpuCompilePhase` models EIGEN_GPU_COMPILE_PHASE. -/
structure CompileConfig where
  assertsActive : Bool
  gpucc : Bool
  gpuCompilePhase : Bool
deriving DecidableEq, Repr

/-- Observable state of the modelled GPU runtime.  Pointers are natural
numbers with 0 playing NULL.  The `...Status` fields are the status each
runtime entry point reports when called; `streamStatus` is what
gpuStreamQuery reports for the bound stream.  `nextPtr` is a bump
allocator cursor for gpuMalloc, and the counters record how many
allocations, frees, asynchronous memsets and memcpys have been issued.
`streamsDestroyed` counts stream destructions, which this header never
performs. -/
structure GpuRuntime where
  numDevices : Nat
  currentDevice : Int
  getCountStatus : gpuError_t
  setDeviceStatus : gpuError_t
  mallocStatus : gpuError_t
  freeStatus : gpuError_t
  memsetStatus : gpuError_t
  memcpyStatus : gpuError_t
  syncStatus : gpuError_t
  streamStatus : gpuError_t
  nextPtr : Nat
  allocCount : Nat
  freeCount : Nat
  memsetAsyncCount : Nat
  memcpyAsyncCount : Nat
  streamsDestroyed : Nat
deriving DecidableEq, Repr

/-- A runtime state in which the device-management calls used by the
scratchpad/semaphore/destructor paths all succeed and gpuMalloc hands
out non-NULL pointers. -/
def GpuRuntime.healthy (r : GpuRuntime) : Prop :=
  r.setDeviceStatus = .gpuSuccess ∧ r.mallocStatus = .gpuSuccess ∧
  r.freeStatus = .gpuSuccess ∧ r.memsetStatus = .gpuSuccess ∧ 0 < r.nextPtr

instance (r : GpuRuntime) : Decidable r.healthy := by
  unfold GpuRuntime.healthy; infer_instance

/-- Model of gpuGetDevice: reports the current device. -/
def gpuGetDevice (r : GpuRuntime) : Int × GpuRuntime :=
  (r.currentDevice, r)

/-- Model of gpuSetDevice: switches the current device when the runtime
reports success. -/
def gpuSetDevice (r : GpuRuntime) (d : Int) : gpuError_t × GpuRuntime :=
  if r.setDeviceStatus = .gpuSuccess then
    (.gpuSuccess, { r with currentDevice := d })
  else
    (r.setDeviceStatus, r)

/-- Model of gpuGetDeviceCount: reports the number of visible devices. -/
def gpuGetDeviceCount (r : GpuRuntime) : gpuError_t × Nat × GpuRuntime :=
  (r.getCountStatus, r.numDevices, r)

/-- Model of gpuMalloc: on success returns the bump-allocator cursor as
the fresh pointer and advances it; on failure returns NULL and leaves
the runtime unchanged. -/
def gpuMalloc (r : GpuRuntime) (numBytes : Nat) : gpuError_t × Nat × GpuRuntime :=
  if r.mallocStatus = .gpuSuccess then
    (.gpuSuccess, r.nextPtr,
      { r with nextPtr := r.nextPtr + numBytes, allocCount := r.allocCount + 1 })
  else
    (r.mallocStatus, 0, r)

/-- Model of gpuFree: on success records one more free. -/
def gpuFree (r : GpuRuntime) (ptr : Nat) : gpuError_t × GpuRuntime :=
  if r.freeStatus = .gpuSuccess then
    (.gpuSuccess, { r with freeCount := r.freeCount + 1 })
  else
    (r.freeStatus, r)

/-- Model of gpuMemsetAsync on a stream: on success records one more
issued asynchronous fill. -/
def gpuMemsetAsync (r : GpuRuntime) (ptr value count stream : Nat) :
    gpuError_t × GpuRuntime :=
  if r.memsetStatus = .gpuSuccess then
    (.gpuSuccess, { r with memsetAsyncCount := r.memsetAsyncCount + 1 })
  else
    (r.memsetStatus, r)

/-- Model of gpuMemcpyAsync on a stream: on success records one more
issued asynchronous copy. -/
def gpuMemcpyAsync (r : GpuRuntime) (dst src n : Nat) :
    gpuError_t × GpuRuntime :=
  if r.memcpyStatus = .gpuSuccess then
    (.gpuSuccess, { r with memcpyAsyncCount := r.memcpyAsyncCount + 1 })
  else
    (r.memcpyStatus, r)

/-- Model of gpuStreamQuery: a non-blocking poll of the stream status. -/
def gpuStreamQuery (r : GpuRuntime) : gpuError_t :=
  r.streamStatus

/-- Model of gpuStreamSynchronize: on success the stream drains, so a
subsequent gpuStreamQuery reports gpuSuccess. -/
def gpuStreamSynchronize (r : GpuRuntime) : gpuError_t × GpuRuntime :=
  if r.syncStatus = .gpuSuccess then
    (.gpuSuccess, { r with streamStatus := .gpuSuccess })
  else
    (r.syncStatus, r)

/-- Model of the C assert macro: a fatal abort when the condition fails
and asserts are compiled in, a no-op otherwise (the header expands
assert(COND) to nothing under EIGEN_HIP_DEVICE_COMPILE). -/
def cAssert (cfg : CompileConfig) (cond : Bool) (msg : String) :
    Except String Unit :=
  if cfg.assertsActive && !cond then Except.error msg else Except.ok ()

/-- Source constant: static const int kGpuScratchSize = 1024. -/
def kGpuScratchSize : Nat := 1024

/-- Byte width of the semaphore slot, sizeof(unsigned int). -/
def sizeofUnsignedInt : Nat := 4

/-- Source constant INT_MAX, the default max-block budget of GpuDevice. -/
def INT_MAX : Int := 2147483647

/-- The fields of GpuStreamDevice: the bound stream (an opaque
identifier, 0 for the default stream), the bound device index, and the
two lazily initialised mutable pointers (0 playing NULL). -/
structure GpuStreamDevice where
  stream_ : Nat
  device_ : Int
  scratch_ : Nat
  semaphore_ : Nat
deriving DecidableEq, Repr

/-- The GpuStreamDevice constructor taking a caller-supplied stream and
an optional device index (source default -1).  A negative index binds to
the current device via gpuGetDevice; a non-negative index is validated:
the constructor asserts that the device-count query succeeded and that
the index is below the visible device count, then binds to it.  The
initializeDeviceProp call the constructor performs only touches the
process-wide property cache, which is modelled separately by the
`InitStep` transition system below. -/
def GpuStreamDevice.construct (cfg : CompileConfig) (stream : Nat)
    (device : Int) (r : GpuRuntime) :
    Except String (GpuStreamDevice × GpuRuntime) :=
  if device < 0 then
    let (d, r) := gpuGetDevice r
    Except.ok ({ stream_ := stream, device_ := d, scratch_ := 0, semaphore_ := 0 }, r)
  else do
    let (err, num_devices, r) := gpuGetDeviceCount r
    let _ ← cAssert cfg (decide (err = .gpuSuccess)) "err == gpuSuccess"
    let _ ← cAssert cfg (decide (device < (num_devices : Int))) "device < num_devices"
    Except.ok ({ stream_ := stream, device_ := device, scratch_ := 0, semaphore_ := 0 }, r)

/-- GpuStreamDevice::allocate: pin the bound device context, then
gpuMalloc, asserting success of both calls and a non-NULL result. -/
def GpuStreamDevice.allocate (cfg : CompileConfig) (dev : GpuStreamDevice)
    (r : GpuRuntime) (num_bytes : Nat) : Except String (Nat × GpuRuntime) := do
  let (err, r) := gpuSetDevice r dev.device_
  let _ ← cAssert cfg (decide (err = .gpuSuccess)) "err == gpuSuccess"
  let (err2, result, r) := gpuMalloc r num_bytes
  let _ ← cAssert cfg (decide (err2 = .gpuSuccess)) "err == gpuSuccess"
  let _ ← cAssert cfg (decide (result ≠ 0)) "result != NULL"
  Except.ok (result, r)

/-- GpuStreamDevice::deallocate: pin the bound device context, assert
the buffer is non-NULL, then gpuFree it, asserting success. -/
def GpuStreamDevice.deallocate (cfg : CompileConfig) (dev : GpuStreamDevice)
    (r : GpuRuntime) (buffer : Nat) : Except String GpuRuntime := do
  let (err, r) := gpuSetDevice r dev.device_
  let _ ← cAssert cfg (decide (err = .gpuSuccess)) "err == gpuSuccess"
  let _ ← cAssert cfg (decide (buffer ≠ 0)) "buffer != NULL"
  let (err2, r) := gpuFree r buffer
  let _ ← cAssert cfg (decide (err2 = .gpuSuccess)) "err == gpuSuccess"
  Except.ok r

/-- GpuStreamDevice::scratchpad: lazily allocate the scratch block of
kGpuScratchSize + sizeof(unsigned int) bytes on first call, returning
the cached pointer thereafter.  Returns the stored pointer together with
the updated device record (explicit passing of the mutable field). -/
def GpuStreamDevice.scratchpad (cfg : CompileConfig) (dev : GpuStreamDevice)
    (r : GpuRuntime) : Except String (Nat × GpuStreamDevice × GpuRuntime) :=
  if dev.scratch_ = 0 then do
    let (p, r) ← GpuStreamDevice.allocate cfg dev r (kGpuScratchSize + sizeofUnsignedInt)
    Except.ok (p, { dev with scratch_ := p }, r)
  else
    Except.ok (dev.scratch_, dev, r)

/-- GpuStreamDevice::semaphore: on first call take the scratchpad
pointer, advance it by kGpuScratchSize bytes, cache the result as the
semaphore pointer and issue one asynchronous zero fill of the
sizeof(unsigned int) slot on the bound stream, asserting success; later
calls return the cached pointer with no further work. -/
def GpuStreamDevice.semaphore (cfg : CompileConfig) (dev : GpuStreamDevice)
    (r : GpuRuntime) : Except String (Nat × GpuStreamDevice × GpuRuntime) :=
  if dev.semaphore_ = 0 then do
    let (sp, dev, r) ← GpuStreamDevice.scratchpad cfg dev r
    let scratch := sp + kGpuScratchSize
    let (err, r) := gpuMemsetAsync r scratch 0 sizeofUnsignedInt dev.stream_
    let _ ← cAssert cfg (decide (err = .gpuSuccess)) "err == gpuSuccess"
    Except.ok (scratch, { dev with semaphore_ := scratch }, r)
  else
    Except.ok (dev.semaphore_, dev, r)

/-- GpuStreamDevice destructor: if the scratch pointer is non-NULL,
deallocate it; otherwise do nothing.  The bound stream is not touched. -/
def GpuStreamDevice.destruct (cfg : CompileConfig) (dev : GpuStreamDevice)
    (r : GpuRuntime) : Except String GpuRuntime :=
  if dev.scratch_ ≠ 0 then
    GpuStreamDevice.deallocate cfg dev r dev.scratch_
  else
    Except.ok r

/-- The fields of GpuDevice: the non-owned StreamInterface pointer
(modelled as an Option, none playing NULL) and the immutable max-block
budget.  Every member function of the source class is const and the
fields are private, so no operation of the facade mutates them; the
embedding mirrors this by never producing an updated GpuDevice. -/
structure GpuDevice where
  stream_ : Option GpuStreamDevice
  max_blocks_ : Int
deriving DecidableEq, Repr

/-- The one-argument GpuDevice constructor: asserts the injected
StreamInterface pointer is non-null and sets the budget to INT_MAX. -/
def GpuDevice.construct (cfg : CompileConfig) (stream : Option GpuStreamDevice) :
    Except String GpuDevice := do
  let _ ← cAssert cfg stream.isSome "stream"
  Except.ok { stream_ := stream, max_blocks_ := INT_MAX }

/-- The two-argument GpuDevice constructor: asserts the injected
StreamInterface pointer is non-null and stores the supplied budget. -/
def GpuDevice.constructWithBlocks (cfg : CompileConfig)
    (stream : Option GpuStreamDevice) (num_blocks : Int) :
    Except String GpuDevice := do
  let _ ← cAssert cfg stream.isSome "stream"
  Except.ok { stream_ := stream, max_blocks_ := num_blocks }

/-- GpuDevice::maxBlocks. -/
def GpuDevice.maxBlocks (d : GpuDevice) : Int :=
  d.max_blocks_

/-- GpuDevice::numThreads, a fixed constant in the source. -/
def GpuDevice.numThreads (d : GpuDevice) : Nat :=
  32

/-- GpuDevice::firstLevelCacheSize, a fixed constant in the source. -/
def GpuDevice.firstLevelCacheSize (d : GpuDevice) : Nat :=
  48 * 1024

/-- GpuDevice::lastLevelCacheSize, defined in the source as a call to
firstLevelCacheSize. -/
def GpuDevice.lastLevelCacheSize (d : GpuDevice) : Nat :=
  d.firstLevelCacheSize

/-- GpuDevice::ok: under EIGEN_GPUCC, a non-blocking gpuStreamQuery
poll, true exactly for gpuSuccess or gpuErrorNotReady; without
EIGEN_GPUCC the source returns false unconditionally. -/
def GpuDevice.ok (cfg : CompileConfig) (d : GpuDevice) (r : GpuRuntime) : Bool :=
  if cfg.gpucc then
    let error := gpuStreamQuery r
    decide (error = .gpuSuccess) || decide (error = .gpuErrorNotReady)
  else
    false

/-- GpuDevice::synchronize: on the host path (EIGEN_GPUCC and not
EIGEN_GPU_COMPILE_PHASE) call gpuStreamSynchronize and assert success
after logging; on the device-compile path assert false. -/
def GpuDevice.synchronize (cfg : CompileConfig) (d : GpuDevice)
    (r : GpuRuntime) : Except String GpuRuntime :=
  if cfg.gpucc && !cfg.gpuCompilePhase then do
    let (err, r) := gpuStreamSynchronize r
    let _ ← if err ≠ .gpuSuccess then
        cAssert cfg (decide (err = .gpuSuccess)) "err == gpuSuccess"
      else
        Except.ok ()
    Except.ok r
  else do
    let _ ← cAssert cfg false "The default device should be used instead to generate kernel code"
    Except.ok r

/-- GpuDevice::memcpy (device to device): outside the GPU compile phase
issue an asynchronous copy and assert success; inside it the source
only asserts false. -/
def GpuDevice.memcpy (cfg : CompileConfig) (d : GpuDevice) (r : GpuRuntime)
    (dst src n : Nat) : Except String GpuRuntime :=
  if !cfg.gpuCompilePhase then do
    let (err, r) := gpuMemcpyAsync r dst src n
    let _ ← cAssert cfg (decide (err = .gpuSuccess)) "err == gpuSuccess"
    Except.ok r
  else do
    let _ ← cAssert cfg false "The default device should be used instead to generate kernel code"
    Except.ok r

/-- GpuDevice::memcpyHostToDevice: issue an asynchronous copy on the
bound stream and assert success. -/
def GpuDevice.memcpyHostToDevice (cfg : CompileConfig) (d : GpuDevice)
    (r : GpuRuntime) (dst src n : Nat) : Except String GpuRuntime := do
  let (err, r) := gpuMemcpyAsync r dst src n
  let _ ← cAssert cfg (decide (err = .gpuSuccess)) "err == gpuSuccess"
  Except.ok r

/-- GpuDevice::memcpyDeviceToHost: issue an asynchronous copy on the
bound stream and assert success. -/
def GpuDevice.memcpyDeviceToHost (cfg : CompileConfig) (d : GpuDevice)
    (r : GpuRuntime) (dst src n : Nat) : Except String GpuRuntime := do
  let (err, r) := gpuMemcpyAsync r dst src n
  let _ ← cAssert cfg (decide (err = .gpuSuccess)) "err == gpuSuccess"
  Except.ok r

/-- GpuDevice::memset: outside the GPU compile phase issue an
asynchronous fill and assert success; inside it the source only asserts
false. -/
def GpuDevice.memset (cfg : CompileConfig) (d : GpuDevice) (r : GpuRuntime)
    (buffer c n : Nat) : Except String GpuRuntime :=
  if !cfg.gpuCompilePhase then do
    let (err, r) := gpuMemsetAsync r buffer c n 0
    let _ ← cAssert cfg (decide (err = .gpuSuccess)) "err == gpuSuccess"
    Except.ok r
  else do
    let _ ← cAssert cfg false "The default device should be used instead to generate kernel code"
    Except.ok r

/-- Program counter of one thread executing initializeDeviceProp.
`start` is the entry read of m_devicePropInitialized; `tryClaim` is the
atomic first.exchange(false); `querying` is the winner about to run
gpuGetDeviceCount and allocate the record array; `writing i` is the
winner inside the per-device gpuGetDeviceProperties loop at index i;
`waiting` is a loser inside the spin loop; `done b` is a returned
thread, with b recording whether this thread performed the query pass. -/
inductive TPc where
  | start
  | tryClaim
  | querying
  | writing (i : Nat)
  | waiting
  | done (didInit : Bool)
deriving DecidableEq, Repr

/-- A program counter at which the thread is (or completed as) the
initializer, i.e. won the exchange and runs or ran the query pass. -/
def TPc.isInit : TPc → Bool
  | .querying => true
  | .writing _ => true
  | .done b => b
  | _ => false

/-- A program counter of a thread that has returned. -/
def TPc.isDone : TPc → Bool
  | .done _ => true
  | _ => false

/-- Shared state of the initializeDeviceProp protocol: the static
atomic `first` flag (true while the claim is untaken), the
m_devicePropInitialized flag, the number of property records written so
far into m_deviceProperties, and every thread's program counter. -/
structure InitState where
  first : Bool
  initialized : Bool
  written : Nat
  pcs : Nat → TPc

/-- Replace one thread's program counter. -/
def InitState.setPc (s : InitState) (t : Nat) (p : TPc) : InitState :=
  { s with pcs := Function.update s.pcs t p }

/-- Initial shared state: claim untaken, cache uninitialized, nothing
written, every thread at entry. -/
def initStateGpu : InitState :=
  { first := true, initialized := false, written := 0, pcs := fun _ => TPc.start }

/-- One interleaved step of the initializeDeviceProp protocol with `n`
threads on a machine with `nd` visible devices, under sequentially
consistent interleaving semantics (the release/acquire fences of the
source order publication after the writes, which program order gives
here).  Each constructor follows one statement of the source. -/
inductive InitStep (n nd : Nat) : InitState → InitState → Prop where
  | fastDone (t : Nat) (s : InitState) (ht : t < n)
      (hpc : s.pcs t = .start) (hi : s.initialized = true) :
      InitStep n nd s (s.setPc t (.done false))
  | enter (t : Nat) (s : InitState) (ht : t < n)
      (hpc : s.pcs t = .start) (hi : s.initialized = false) :
      InitStep n nd s (s.setPc t .tryClaim)
  | claimWin (t : Nat) (s : InitState) (ht : t < n)
      (hpc : s.pcs t = .tryClaim) (hf : s.first = true) :
      InitStep n nd s { s.setPc t .querying with first := false }
  | claimLose (t : Nat) (s : InitState) (ht : t < n)
      (hpc : s.pcs t = .tryClaim) (hf : s.first = false) :
      InitStep n nd s (s.setPc t .waiting)
  | countQuery (t : Nat) (s : InitState) (ht : t < n)
      (hpc : s.pcs t = .querying) :
      InitStep n nd s (s.setPc t (.writing 0))
  | writeRecord (t : Nat) (i : Nat) (s : InitState) (ht : t < n)
      (hpc : s.pcs t = .writing i) (hlt : i < nd) :
      InitStep n nd s { s.setPc t (.writing (i + 1)) with written := s.written + 1 }
  | publish (t : Nat) (s : InitState) (ht : t < n)
      (hpc : s.pcs t = .writing nd) :
      InitStep n nd s { s.setPc t (.done true) with initialized := true }
  | spin (t : Nat) (s : InitState) (ht : t < n)
      (hpc : s.pcs t = .waiting) (hi : s.initialized = false) :
      InitStep n nd s s
  | waitDone (t : Nat) (s : InitState) (ht : t < n)
      (hpc : s.pcs t = .waiting) (hi : s.initialized = true) :
      InitStep n nd s (s.setPc t (.done false))

/-- States reachable by the initializeDeviceProp protocol from the
initial state. -/
inductive ReachableInit (n nd : Nat) : InitState → Prop where
  | init : ReachableInit n nd initStateGpu
  | step (s s' : InitState) (h : ReachableInit n nd s)
      (hs : InitStep n nd s s') : ReachableInit n nd s'

/-- Inductive invariant of the initializeDeviceProp protocol: at most
one initializer; the claim flag is taken exactly when an initializer
exists; an untaken claim means nothing happened yet; the writing loop
counter tracks the number of written records; publication implies the
array is fully populated and names a finished initializer; returned
threads only exist after publication; threads beyond `n` never move. -/
def InitInv (n nd : Nat) (s : InitState) : Prop :=
  (∀ t u, (s.pcs t).isInit = true → (s.pcs u).isInit = true → t = u) ∧
  (s.first = false ↔ ∃ t, t < n ∧ (s.pcs t).isInit = true) ∧
  (s.first = true → s.initialized = false ∧ s.written = 0) ∧
  (∀ t i, s.pcs t = .writing i → i ≤ nd ∧ s.written = i ∧ s.initialized = false) ∧
  (∀ t, s.pcs t = .querying → s.written = 0 ∧ s.initialized = false) ∧
  (s.initialized = true → s.written = nd ∧ ∃ t, t < n ∧ s.pcs t = .done true) ∧
  (∀ t b, s.pcs t = .done b → s.initialized = true) ∧
  (∀ t, n ≤ t → s.pcs t = .start)

/-- Compile-time configuration of an ordinary host compilation pass:
asserts on, EIGEN_GPUCC defined, not the device compile phase. -/
def cfgHost : CompileConfig :=
  { assertsActive := true, gpucc := true, gpuCompilePhase := false }

/-- Compile-time configuration of a HIP device-side compilation pass:
EIGEN_HIP_DEVICE_COMPILE redefines assert to a no-op, and the GPU
compile phase is active. -/
def cfgHipDevice : CompileConfig :=
  { assertsActive := false, gpucc := true, gpuCompilePhase := true }

/-- A concrete healthy runtime with two visible devices, used to
instantiate theorems with hypotheses. -/
def rtOk : GpuRuntime :=
  { numDevices := 2, currentDevice := 0, getCountStatus := .gpuSuccess,
    setDeviceStatus := .gpuSuccess, mallocStatus := .gpuSuccess,
    freeStatus := .gpuSuccess, memsetStatus := .gpuSuccess,
    memcpyStatus := .gpuSuccess, syncStatus := .gpuSuccess,
    streamStatus := .gpuSuccess, nextPtr := 1, allocCount := 0,
    freeCount := 0, memsetAsyncCount := 0, memcpyAsyncCount := 0,
    streamsDestroyed := 0 }

/-- A concrete runtime in which every failure-prone call reports an
error, used to instantiate the no-assert compilation theorems. -/
def rtBroken : GpuRuntime :=
  { rtOk with
    setDeviceStatus := (gpuError_t.gpuErrorOther 1),
    mallocStatus := (gpuError_t.gpuErrorOther 2),
    freeStatus := (gpuError_t.gpuErrorOther 3),
    memsetStatus := (gpuError_t.gpuErrorOther 4),
    memcpyStatus := (gpuError_t.gpuErrorOther 5),
    syncStatus := (gpuError_t.gpuErrorOther 6),
    streamStatus := (gpuError_t.gpuErrorOther 7) }

/-- A freshly constructed GpuStreamDevice bound to device 0 on the
default stream, with no scratch or semaphore allocation yet. -/
def devFresh : GpuStreamDevice :=
  { stream_ := 0, device_ := 0, scratch_ := 0, semaphore_ := 0 }

/-- A concrete GpuDevice facade over `devFresh` with the default
budget. -/
def gpuDev0 : GpuDevice :=
  { stream_ := some devFresh, max_blocks_ := INT_MAX }

/-- Intermediate states of one concrete two-thread, one-device run of
the initializeDeviceProp protocol: both threads enter. -/
def raceS1 : InitState := initStateGpu.setPc 0 TPc.tryClaim

/-- Run state after thread 1 also reads the flag. -/
def raceS2 : InitState := raceS1.setPc 1 TPc.tryClaim

/-- Run state after thread 0 wins the exchange. -/
def raceS3 : InitState := { raceS2.setPc 0 TPc.querying with first := false }

/-- Run state after thread 1 loses the exchange and starts spinning. -/
def raceS4 : InitState := raceS3.setPc 1 TPc.waiting

/-- Run state after thread 0 queries the device count. -/
def raceS5 : InitState := raceS4.setPc 0 (TPc.writing 0)

/-- Run state after thread 0 writes the single property record. -/
def raceS6 : InitState :=
  { raceS5.setPc 0 (TPc.writing 1) with written := (raceS5.written + 1) }

/-- Run state after thread 0 publishes completion. -/
def raceS7 : InitState :=
  { raceS6.setPc 0 (TPc.done true) with initialized := true }

/-- Final run state after thread 1 observes the flag and returns. -/
def raceS8 : InitState := raceS7.setPc 1 (TPc.done false)

theorem cAssert_ok (cfg : CompileConfig) (m : String) :
    cAssert cfg true m = Except.ok () := by
  simp [cAssert]

theorem cAssert_off (cfg : CompileConfig) (c : Bool) (m : String)
    (h : cfg.assertsActive = false) : cAssert cfg c m = Except.ok () := by
  simp [cAssert, h]

theorem cAssert_fatal (cfg : CompileConfig) (m : String)
    (h : cfg.assertsActive = true) : cAssert cfg false m = Except.error m := by
  simp [cAssert, h]

/-- C8: for every GpuDevice, numThreads() returns the constant 32,
firstLevelCacheSize() returns the constant 48*1024 bytes, and
lastLevelCacheSize() returns a value equal to firstLevelCacheSize(),
independent of the bound device (the facade argument is arbitrary and
the functions never consult the cached device properties). -/
theorem gpuDevice_fixed_capability_constants (d : GpuDevice) :
    d.numThreads = 32 ∧ d.firstLevelCacheSize = 48 * 1024 ∧
    d.lastLevelCacheSize = d.firstLevelCacheSize :=
  ⟨rfl, rfl, rfl⟩

/-- C9: every negative device index passed to the stream-supplied
GpuStreamDevice constructor is treated as unspecified: the instance
binds to the current device reported by the runtime, and the
device-count validation is skipped entirely (the conclusion holds for
every runtime state and compile configuration, including ones where the
count query would fail or report zero devices). -/
theorem gpuStreamDevice_negative_index_uses_current_device
    (cfg : CompileConfig) (stream : Nat) (device : Int) (r : GpuRuntime)
    (hneg : device < 0) :
    GpuStreamDevice.construct cfg stream device r =
      Except.ok ({ stream_ := stream, device_ := r.currentDevice,
                   scratch_ := 0, semaphore_ := 0 }, r) := by
  simp [GpuStreamDevice.construct, gpuGetDevice, hneg]

/-- Witness for C9 at stream 7, device index -3 and the concrete
healthy runtime. -/
theorem gpuStreamDevice_negative_index_uses_current_device_witness :
    ((-3 : Int) < 0) ∧
    GpuStreamDevice.construct cfgHost 7 (-3) rtOk =
      Except.ok ({ stream_ := 7, device_ := 0,
                   scratch_ := 0, semaphore_ := 0 }, rtOk) :=
  ⟨by decide,
   gpuStreamDevice_negative_index_uses_current_device cfgHost 7 (-3) rtOk (by decide)⟩

/-- C6: constructing a GpuStreamDevice from a caller-supplied stream
with a non-negative device index at or above the visible device count
is fatal at construction time under an assert-enabled build: the
constructor aborts on the index-validation assert and never yields a
device record bound to a fallback index. -/
theorem gpuStreamDevice_out_of_range_index_fatal
    (cfg : CompileConfig) (stream : Nat) (device : Int) (r : GpuRuntime)
    (ha : cfg.assertsActive = true) (hnn : 0 ≤ device)
    (hge : (r.numDevices : Int) ≤ device)
    (hcount : r.getCountStatus = gpuError_t.gpuSuccess) :
    GpuStreamDevice.construct cfg stream device r =
      Except.error "device < num_devices" := by
  have h1 : ¬ device < 0 := not_lt.mpr hnn
  have h2 : ¬ device < (r.numDevices : Int) := not_lt.mpr hge
  simp [GpuStreamDevice.construct, gpuGetDeviceCount, cAssert, h1, h2, hcount, ha, Bind.bind, Except.bind]

/-- Witness for C6: requesting device index 5 on a runtime with two
visible devices aborts. -/
theorem gpuStreamDevice_out_of_range_index_fatal_witness :
    (cfgHost.assertsActive = true ∧ (0 : Int) ≤ 5 ∧
      ((rtOk.numDevices : Int) ≤ 5) ∧
      rtOk.getCountStatus = gpuError_t.gpuSuccess) ∧
    GpuStreamDevice.construct cfgHost 7 5 rtOk =
      Except.error "device < num_devices" :=
  ⟨⟨rfl, by decide, by decide, rfl⟩,
   gpuStreamDevice_out_of_range_index_fatal cfgHost 7 5 rtOk rfl (by decide)
     (by decide) rfl⟩

/-- C7: the GpuDevice facade stores the max-block budget supplied at
construction and maxBlocks() returns exactly that value; the
one-argument constructor stores the unbounded default INT_MAX; both
constructors assert that the injected StreamInterface pointer is
non-null.  Every member function of the source class is const over
private fields, which the embedding mirrors by never producing an
updated GpuDevice, so no operation can change the stored budget. -/
theorem gpuDevice_maxBlocks_spec (cfg : CompileConfig)
    (stream : Option GpuStreamDevice) (num_blocks : Int)
    (hs : stream.isSome = true) (ha : cfg.assertsActive = true) :
    (GpuDevice.constructWithBlocks cfg stream num_blocks =
      Except.ok { stream_ := stream, max_blocks_ := num_blocks }) ∧
    (GpuDevice.construct cfg stream =
      Except.ok { stream_ := stream, max_blocks_ := INT_MAX }) ∧
    (∀ d : GpuDevice,
      GpuDevice.constructWithBlocks cfg stream num_blocks = Except.ok d →
      d.maxBlocks = num_blocks) ∧
    (∀ d : GpuDevice,
      GpuDevice.construct cfg stream = Except.ok d → d.maxBlocks = INT_MAX) ∧
    (GpuDevice.construct cfg none = Except.error "stream") ∧
    (GpuDevice.constructWithBlocks cfg none num_blocks = Except.error "stream") := by
  have hc : GpuDevice.constructWithBlocks cfg stream num_blocks =
      Except.ok { stream_ := stream, max_blocks_ := num_blocks } := by
    simp [GpuDevice.constructWithBlocks, cAssert, hs, Bind.bind, Except.bind]
  have hd : GpuDevice.construct cfg stream =
      Except.ok { stream_ := stream, max_blocks_ := INT_MAX } := by
    simp [GpuDevice.construct, cAssert, hs, Bind.bind, Except.bind]
  refine ⟨hc, hd, ?_, ?_, ?_, ?_⟩
  · intro d hdev
    rw [hc] at hdev
    cases hdev
    rfl
  · intro d hdev
    rw [hd] at hdev
    cases hdev
    rfl
  · simp [GpuDevice.construct, cAssert, ha, Bind.bind, Except.bind]
  · simp [GpuDevice.constructWithBlocks, cAssert, ha, Bind.bind, Except.bind]

/-- Witness for C7 with a concrete stream device and budget 17. -/
theorem gpuDevice_maxBlocks_spec_witness :
    ((some devFresh).isSome = true ∧ cfgHost.assertsActive = true) ∧
    (GpuDevice.constructWithBlocks cfgHost (some devFresh) 17 =
      Except.ok { stream_ := some devFresh, max_blocks_ := 17 }) ∧
    (GpuDevice.construct cfgHost (some devFresh) =
      Except.ok { stream_ := some devFresh, max_blocks_ := INT_MAX }) ∧
    (∀ d : GpuDevice,
      GpuDevice.constructWithBlocks cfgHost (some devFresh) 17 = Except.ok d →
      d.maxBlocks = 17) ∧
    (∀ d : GpuDevice,
      GpuDevice.construct cfgHost (some devFresh) = Except.ok d →
      d.maxBlocks = INT_MAX) ∧
    (GpuDevice.construct cfgHost none = Except.error "stream") ∧
    (GpuDevice.constructWithBlocks cfgHost none 17 = Except.error "stream") :=
  ⟨⟨rfl, rfl⟩, gpuDevice_maxBlocks_spec cfgHost (some devFresh) 17 rfl rfl⟩

theorem allocate_healthy_eq (cfg : CompileConfig) (dev : GpuStreamDevice)
    (r : GpuRuntime) (n : Nat) (h1 : r.setDeviceStatus = gpuError_t.gpuSuccess)
    (h2 : r.mallocStatus = gpuError_t.gpuSuccess) (h3 : 0 < r.nextPtr) :
    GpuStreamDevice.allocate cfg dev r n =
      Except.ok (r.nextPtr,
        { r with
          currentDevice := dev.device_,
          nextPtr := (r.nextPtr + n),
          allocCount := (r.allocCount + 1) }) := by
  have hne : r.nextPtr ≠ 0 := Nat.pos_iff_ne_zero.mp h3
  simp [GpuStreamDevice.allocate, gpuSetDevice, gpuMalloc, cAssert, h1, h2, hne,
        Bind.bind, Except.bind]

theorem scratchpad_fresh_eq (cfg : CompileConfig) (dev : GpuStreamDevice)
    (r : GpuRuntime) (hfresh : dev.scratch_ = 0)
    (h1 : r.setDeviceStatus = gpuError_t.gpuSuccess)
    (h2 : r.mallocStatus = gpuError_t.gpuSuccess) (h3 : 0 < r.nextPtr) :
    GpuStreamDevice.scratchpad cfg dev r =
      Except.ok (r.nextPtr,
        { dev with scratch_ := r.nextPtr },
        { r with
          currentDevice := dev.device_,
          nextPtr := (r.nextPtr + (kGpuScratchSize + sizeofUnsignedInt)),
          allocCount := (r.allocCount + 1) }) := by
  simp [GpuStreamDevice.scratchpad, hfresh,
        allocate_healthy_eq cfg dev r (kGpuScratchSize + sizeofUnsignedInt) h1 h2 h3,
        Bind.bind, Except.bind]

theorem scratchpad_cached_eq (cfg : CompileConfig) (dev : GpuStreamDevice)
    (r : GpuRuntime) (h : dev.scratch_ ≠ 0) :
    GpuStreamDevice.scratchpad cfg dev r = Except.ok (dev.scratch_, dev, r) := by
  simp [GpuStreamDevice.scratchpad, h]

/-- C2: scratchpad() is idempotent lazy allocation.  On a fresh
GpuStreamDevice with a healthy runtime the first call allocates the
fixed-size block of kGpuScratchSize + sizeof(unsigned int) bytes
(exactly one allocation, visible as the bump-cursor advance), returns a
non-NULL pointer, and a second call on the resulting instance returns
the same pointer with the instance and the runtime unchanged, so no
further allocation happens. -/
theorem gpuStreamDevice_scratchpad_idempotent (cfg : CompileConfig)
    (dev : GpuStreamDevice) (r : GpuRuntime) (hfresh : dev.scratch_ = 0)
    (hr : r.healthy) :
    ∃ p dev1 r1,
      GpuStreamDevice.scratchpad cfg dev r = Except.ok (p, dev1, r1) ∧
      p ≠ 0 ∧
      r1.allocCount = r.allocCount + 1 ∧
      r1.nextPtr = r.nextPtr + (kGpuScratchSize + sizeofUnsignedInt) ∧
      GpuStreamDevice.scratchpad cfg dev1 r1 = Except.ok (p, dev1, r1) := by
  obtain ⟨h1, h2, h3, h4, h5⟩ := hr
  have hp : r.nextPtr ≠ 0 := Nat.pos_iff_ne_zero.mp h5
  refine ⟨r.nextPtr, { dev with scratch_ := r.nextPtr },
    { r with
      currentDevice := dev.device_,
      nextPtr := (r.nextPtr + (kGpuScratchSize + sizeofUnsignedInt)),
      allocCount := (r.allocCount + 1) },
    scratchpad_fresh_eq cfg dev r hfresh h1 h2 h5, hp, rfl, rfl, ?_⟩
  exact scratchpad_cached_eq cfg _ _ (by simpa using hp)

/-- Witness for C2 on the concrete fresh device and healthy runtime. -/
theorem gpuStreamDevice_scratchpad_idempotent_witness :
    (devFresh.scratch_ = 0 ∧ rtOk.healthy) ∧
    (∃ p dev1 r1,
      GpuStreamDevice.scratchpad cfgHost devFresh rtOk = Except.ok (p, dev1, r1) ∧
      p ≠ 0 ∧
      r1.allocCount = rtOk.allocCount + 1 ∧
      r1.nextPtr = rtOk.nextPtr + (kGpuScratchSize + sizeofUnsignedInt) ∧
      GpuStreamDevice.scratchpad cfgHost dev1 r1 = Except.ok (p, dev1, r1)) :=
  ⟨⟨rfl, by decide⟩,
   gpuStreamDevice_scratchpad_idempotent cfgHost devFresh rtOk rfl (by decide)⟩

/-- C3: semaphore() hands out the 4-byte slot exactly kGpuScratchSize
bytes past the start of the scratch allocation.  On a fresh instance
with a healthy runtime the first call issues exactly one asynchronous
zero fill (the memset counter advances by one), and a second call on
the resulting instance returns the same pointer with the instance and
runtime unchanged, so no further zero fill is issued. -/
theorem gpuStreamDevice_semaphore_spec (cfg : CompileConfig)
    (dev : GpuStreamDevice) (r : GpuRuntime) (hscr : dev.scratch_ = 0)
    (hsem : dev.semaphore_ = 0) (hr : r.healthy) :
    ∃ s dev1 r1,
      GpuStreamDevice.semaphore cfg dev r = Except.ok (s, dev1, r1) ∧
      s = dev1.scratch_ + kGpuScratchSize ∧
      dev1.scratch_ ≠ 0 ∧
      r1.memsetAsyncCount = r.memsetAsyncCount + 1 ∧
      GpuStreamDevice.semaphore cfg dev1 r1 = Except.ok (s, dev1, r1) := by
  obtain ⟨h1, h2, h3, h4, h5⟩ := hr
  have hp : r.nextPtr ≠ 0 := Nat.pos_iff_ne_zero.mp h5
  refine ⟨r.nextPtr + kGpuScratchSize,
    { dev with scratch_ := r.nextPtr,
               semaphore_ := (r.nextPtr + kGpuScratchSize) },
    { r with
      currentDevice := dev.device_,
      nextPtr := (r.nextPtr + (kGpuScratchSize + sizeofUnsignedInt)),
      allocCount := (r.allocCount + 1),
      memsetAsyncCount := (r.memsetAsyncCount + 1) },
    ?_, rfl, hp, rfl, ?_⟩
  · simp [GpuStreamDevice.semaphore, hsem,
          scratchpad_fresh_eq cfg dev r hscr h1 h2 h5,
          gpuMemsetAsync, cAssert, h4, Bind.bind, Except.bind]
  · have hne : r.nextPtr + kGpuScratchSize ≠ 0 := by
      simp [kGpuScratchSize]
    simp [GpuStreamDevice.semaphore, hne]

/-- Witness for C3 on the concrete fresh device and healthy runtime. -/
theorem gpuStreamDevice_semaphore_spec_witness :
    (devFresh.scratch_ = 0 ∧ devFresh.semaphore_ = 0 ∧ rtOk.healthy) ∧
    (∃ s dev1 r1,
      GpuStreamDevice.semaphore cfgHost devFresh rtOk = Except.ok (s, dev1, r1) ∧
      s = dev1.scratch_ + kGpuScratchSize ∧
      dev1.scratch_ ≠ 0 ∧
      r1.memsetAsyncCount = rtOk.memsetAsyncCount + 1 ∧
      GpuStreamDevice.semaphore cfgHost dev1 r1 = Except.ok (s, dev1, r1)) :=
  ⟨⟨rfl, rfl, by decide⟩,
   gpuStreamDevice_semaphore_spec cfgHost devFresh rtOk rfl rfl (by decide)⟩

/-- C4: destroying a GpuStreamDevice that never allocated a scratch
block performs no free at all (the runtime is returned untouched),
while destroying one whose scratchpad() was called frees exactly one
allocation (the free counter advances by one); in neither case is any
stream destroyed. -/
theorem gpuStreamDevice_destruct_frees (cfg : CompileConfig)
    (dev : GpuStreamDevice) (r : GpuRuntime) (hfresh : dev.scratch_ = 0)
    (hr : r.healthy) :
    (GpuStreamDevice.destruct cfg dev r = Except.ok r) ∧
    (∀ p dev1 r1,
      GpuStreamDevice.scratchpad cfg dev r = Except.ok (p, dev1, r1) →
      ∃ r2, GpuStreamDevice.destruct cfg dev1 r1 = Except.ok r2 ∧
        r2.freeCount = r1.freeCount + 1 ∧
        r2.streamsDestroyed = r1.streamsDestroyed) := by
  obtain ⟨h1, h2, h3, h4, h5⟩ := hr
  have hp : r.nextPtr ≠ 0 := Nat.pos_iff_ne_zero.mp h5
  constructor
  · simp [GpuStreamDevice.destruct, hfresh]
  · intro p dev1 r1 heq
    rw [scratchpad_fresh_eq cfg dev r hfresh h1 h2 h5] at heq
    simp only [Except.ok.injEq, Prod.mk.injEq] at heq
    obtain ⟨rfl, rfl, rfl⟩ := heq
    refine ⟨{ r with
      currentDevice := dev.device_,
      nextPtr := (r.nextPtr + (kGpuScratchSize + sizeofUnsignedInt)),
      allocCount := (r.allocCount + 1),
      freeCount := (r.freeCount + 1) }, ?_, rfl, rfl⟩
    simp [GpuStreamDevice.destruct, GpuStreamDevice.deallocate, gpuSetDevice,
          gpuFree, cAssert, h1, h3, hp, Bind.bind, Except.bind]

/-- Witness for C4 on the concrete fresh device and healthy runtime. -/
theorem gpuStreamDevice_destruct_frees_witness :
    (devFresh.scratch_ = 0 ∧ rtOk.healthy) ∧
    (GpuStreamDevice.destruct cfgHost devFresh rtOk = Except.ok rtOk) ∧
    (∀ p dev1 r1,
      GpuStreamDevice.scratchpad cfgHost devFresh rtOk = Except.ok (p, dev1, r1) →
      ∃ r2, GpuStreamDevice.destruct cfgHost dev1 r1 = Except.ok r2 ∧
        r2.freeCount = r1.freeCount + 1 ∧
        r2.streamsDestroyed = r1.streamsDestroyed) :=
  ⟨⟨rfl, by decide⟩,
   gpuStreamDevice_destruct_frees cfgHost devFresh rtOk rfl (by decide)⟩

/-- C5: under EIGEN_GPUCC, ok() is a non-blocking poll that is true
exactly when gpuStreamQuery reports gpuSuccess (complete) or
gpuErrorNotReady (still running) and false for every other status; and
after a synchronize() that returns successfully the stream has drained,
so ok() is true. -/
theorem gpuDevice_ok_poll (cfg : CompileConfig) (d : GpuDevice)
    (r : GpuRuntime) (hg : cfg.gpucc = true) (ha : cfg.assertsActive = true)
    (hp : cfg.gpuCompilePhase = false) :
    (GpuDevice.ok cfg d r = true ↔
      (gpuStreamQuery r = gpuError_t.gpuSuccess ∨
        gpuStreamQuery r = gpuError_t.gpuErrorNotReady)) ∧
    (∀ r1, GpuDevice.synchronize cfg d r = Except.ok r1 →
      GpuDevice.ok cfg d r1 = true) := by
  constructor
  · simp [GpuDevice.ok, hg, gpuStreamQuery]
  · intro r1 hsync
    by_cases hs : r.syncStatus = gpuError_t.gpuSuccess
    · rw [GpuDevice.synchronize] at hsync
      simp [hg, hp, gpuStreamSynchronize, hs, Bind.bind, Except.bind] at hsync
      subst hsync
      simp [GpuDevice.ok, hg, gpuStreamQuery]
    · exfalso
      rw [GpuDevice.synchronize] at hsync
      simp [hg, hp, gpuStreamSynchronize, hs, cAssert, ha,
            Bind.bind, Except.bind] at hsync

/-- Witness for C5 on the concrete facade and healthy runtime. -/
theorem gpuDevice_ok_poll_witness :
    (cfgHost.gpucc = true ∧ cfgHost.assertsActive = true ∧
      cfgHost.gpuCompilePhase = false) ∧
    ((GpuDevice.ok cfgHost gpuDev0 rtOk = true ↔
      (gpuStreamQuery rtOk = gpuError_t.gpuSuccess ∨
        gpuStreamQuery rtOk = gpuError_t.gpuErrorNotReady)) ∧
    (∀ r1, GpuDevice.synchronize cfgHost gpuDev0 rtOk = Except.ok r1 →
      GpuDevice.ok cfgHost gpuDev0 r1 = true)) :=
  ⟨⟨rfl, rfl, rfl⟩, gpuDevice_ok_poll cfgHost gpuDev0 rtOk rfl rfl rfl⟩

/-- C10: when EIGEN_HIP_DEVICE_COMPILE redefines assert to a no-op,
every failure path expressed as an assert is silently skipped: for
every runtime state, including ones where device-context switching,
allocation, freeing, copying or filling report errors and where NULL
buffers are passed, allocate, deallocate, the memcpy family, memset and
synchronize all return without raising a fatal condition. -/
theorem hipDeviceCompile_skips_assert_failures (cfg : CompileConfig)
    (dev : GpuStreamDevice) (d : GpuDevice) (r : GpuRuntime)
    (h : cfg.assertsActive = false) :
    (∀ n, ∃ p r1, GpuStreamDevice.allocate cfg dev r n = Except.ok (p, r1)) ∧
    (∀ buffer, ∃ r1, GpuStreamDevice.deallocate cfg dev r buffer = Except.ok r1) ∧
    (∀ dst src n, ∃ r1, GpuDevice.memcpy cfg d r dst src n = Except.ok r1) ∧
    (∀ dst src n, ∃ r1, GpuDevice.memcpyHostToDevice cfg d r dst src n = Except.ok r1) ∧
    (∀ dst src n, ∃ r1, GpuDevice.memcpyDeviceToHost cfg d r dst src n = Except.ok r1) ∧
    (∀ buffer c n, ∃ r1, GpuDevice.memset cfg d r buffer c n = Except.ok r1) ∧
    (∃ r1, GpuDevice.synchronize cfg d r = Except.ok r1) := by
  have hca : ∀ (c : Bool) (m : String), cAssert cfg c m = Except.ok () :=
    fun c m => cAssert_off cfg c m h
  refine ⟨?_, ?_, ?_, ?_, ?_, ?_, ?_⟩
  · intro n
    by_cases hsd : r.setDeviceStatus = gpuError_t.gpuSuccess <;>
      by_cases hm : r.mallocStatus = gpuError_t.gpuSuccess <;>
        simp [GpuStreamDevice.allocate, gpuSetDevice, gpuMalloc, hca, hsd, hm,
              Bind.bind, Except.bind]
  · intro buffer
    by_cases hsd : r.setDeviceStatus = gpuError_t.gpuSuccess <;>
      by_cases hf : r.freeStatus = gpuError_t.gpuSuccess <;>
        simp [GpuStreamDevice.deallocate, gpuSetDevice, gpuFree, hca, hsd, hf,
              Bind.bind, Except.bind]
  · intro dst src n
    by_cases hc : r.memcpyStatus = gpuError_t.gpuSuccess <;>
      by_cases hph : cfg.gpuCompilePhase <;>
        simp [GpuDevice.memcpy, gpuMemcpyAsync, hca, hc, hph,
              Bind.bind, Except.bind]
  · intro dst src n
    by_cases hc : r.memcpyStatus = gpuError_t.gpuSuccess <;>
      simp [GpuDevice.memcpyHostToDevice, gpuMemcpyAsync, hca, hc,
            Bind.bind, Except.bind]
  · intro dst src n
    by_cases hc : r.memcpyStatus = gpuError_t.gpuSuccess <;>
      simp [GpuDevice.memcpyDeviceToHost, gpuMemcpyAsync, hca, hc,
            Bind.bind, Except.bind]
  · intro buffer c n
    by_cases hms : r.memsetStatus = gpuError_t.gpuSuccess <;>
      by_cases hph : cfg.gpuCompilePhase <;>
        simp [GpuDevice.memset, gpuMemsetAsync, hca, hms, hph,
              Bind.bind, Except.bind]
  · by_cases hsy : r.syncStatus = gpuError_t.gpuSuccess <;>
      by_cases hg : cfg.gpucc <;>
        by_cases hph : cfg.gpuCompilePhase <;>
          simp [GpuDevice.synchronize, gpuStreamSynchronize, hca, hsy, hg, hph,
                Bind.bind, Except.bind]

/-- Witness for C10 on the all-failing runtime under the HIP
device-compile configuration, applying the theorem at a concrete NULL
buffer and failing statuses. -/
theorem hipDeviceCompile_skips_assert_failures_witness :
    (cfgHipDevice.assertsActive = false ∧
      rtBroken.mallocStatus ≠ gpuError_t.gpuSuccess ∧
      rtBroken.setDeviceStatus ≠ gpuError_t.gpuSuccess) ∧
    ((∀ n, ∃ p r1,
        GpuStreamDevice.allocate cfgHipDevice devFresh rtBroken n = Except.ok (p, r1)) ∧
    (∀ buffer, ∃ r1,
        GpuStreamDevice.deallocate cfgHipDevice devFresh rtBroken buffer = Except.ok r1) ∧
    (∀ dst src n, ∃ r1,
        GpuDevice.memcpy cfgHipDevice gpuDev0 rtBroken dst src n = Except.ok r1) ∧
    (∀ dst src n, ∃ r1,
        GpuDevice.memcpyHostToDevice cfgHipDevice gpuDev0 rtBroken dst src n = Except.ok r1) ∧
    (∀ dst src n, ∃ r1,
        GpuDevice.memcpyDeviceToHost cfgHipDevice gpuDev0 rtBroken dst src n = Except.ok r1) ∧
    (∀ buffer c n, ∃ r1,
        GpuDevice.memset cfgHipDevice gpuDev0 rtBroken buffer c n = Except.ok r1) ∧
    (∃ r1, GpuDevice.synchronize cfgHipDevice gpuDev0 rtBroken = Except.ok r1)) :=
  ⟨⟨rfl, by decide, by decide⟩,
   hipDeviceCompile_skips_assert_failures cfgHipDevice devFresh gpuDev0 rtBroken rfl⟩

theorem setPc_pcs (s : InitState) (t : Nat) (p : TPc) (u : Nat) :
    (s.setPc t p).pcs u = if u = t then p else s.pcs u := by
  simp [InitState.setPc, Function.update_apply]

theorem setPc_pcs_self (s : InitState) (t : Nat) (p : TPc) :
    (s.setPc t p).pcs t = p := by
  simp [setPc_pcs]

theorem setPc_pcs_ne (s : InitState) (t : Nat) (p : TPc) (u : Nat)
    (h : u ≠ t) : (s.setPc t p).pcs u = s.pcs u := by
  simp [setPc_pcs, h]

theorem setPc_first (s : InitState) (t : Nat) (p : TPc) :
    (s.setPc t p).first = s.first := rfl

theorem setPc_initialized (s : InitState) (t : Nat) (p : TPc) :
    (s.setPc t p).initialized = s.initialized := rfl

theorem setPc_written (s : InitState) (t : Nat) (p : TPc) :
    (s.setPc t p).written = s.written := rfl

theorem isInit_of_setPc (s : InitState) (t : Nat) (p : TPc)
    (hp : p.isInit = false) (a : Nat)
    (ha : ((s.setPc t p).pcs a).isInit = true) : (s.pcs a).isInit = true := by
  rw [setPc_pcs] at ha
  by_cases h : a = t
  · rw [if_pos h, hp] at ha
    cases ha
  · rwa [if_neg h] at ha

theorem isInit_to_setPc (s : InitState) (t : Nat) (p : TPc)
    (hp : p.isInit = false) (a : Nat) (hat : (s.pcs t).isInit = false)
    (ha : (s.pcs a).isInit = true) : ((s.setPc t p).pcs a).isInit = true := by
  rw [setPc_pcs]
  have h : a ≠ t := by
    intro h
    rw [h, hat] at ha
    cases ha
  rwa [if_neg h]

theorem initInv_initial (n nd : Nat) : InitInv n nd initStateGpu := by
  refine ⟨?_, ?_, ?_, ?_, ?_, ?_, ?_, ?_⟩ <;>
    simp [initStateGpu, TPc.isInit]

theorem initInv_step (n nd : Nat) (s s' : InitState) (hinv : InitInv n nd s)
    (hstep : InitStep n nd s s') : InitInv n nd s' := by
  obtain ⟨uniq, fiff, ftrue, winv, qinv, pinv, dinit, oob⟩ := hinv
  have noInitOfFirst : s.first = true → ∀ a, (s.pcs a).isInit = false := by
    intro hf a
    cases hx : (s.pcs a).isInit
    · rfl
    · exfalso
      by_cases han : a < n
      · have hfalse : s.first = false := fiff.mpr ⟨a, han, hx⟩
        rw [hf] at hfalse
        cases hfalse
      · have hst := oob a (Nat.le_of_not_lt han)
        rw [hst] at hx
        cases hx
  have ne_of_oob : ∀ a, n ≤ a → ∀ t0, t0 < n → a ≠ t0 := by
    intro a hna t0 ht0 he
    rw [he] at hna
    exact absurd ht0 (Nat.not_lt.mpr hna)
  cases hstep with
  | fastDone t s0 ht hpc hi =>
    unfold InitInv
    refine ⟨?_, ?_, ?_, ?_, ?_, ?_, ?_, ?_⟩
    · intro a b ha hb
      exact uniq a b (isInit_of_setPc s t (TPc.done false) rfl a ha) (isInit_of_setPc s t (TPc.done false) rfl b hb)
    · rw [setPc_first]
      constructor
      · intro hf
        obtain ⟨a, han, ha⟩ := fiff.mp hf
        refine ⟨a, han, isInit_to_setPc s t (TPc.done false) rfl a ?_ ha⟩
        rw [hpc]
        rfl
      · rintro ⟨a, han, ha⟩
        exact fiff.mpr ⟨a, han, isInit_of_setPc s t (TPc.done false) rfl a ha⟩
    · exact ftrue
    · intro a i ha
      rw [setPc_pcs] at ha
      by_cases hat : a = t
      · rw [if_pos hat] at ha
        exact TPc.noConfusion ha
      · rw [if_neg hat] at ha
        exact winv a i ha
    · intro a ha
      rw [setPc_pcs] at ha
      by_cases hat : a = t
      · rw [if_pos hat] at ha
        exact TPc.noConfusion ha
      · rw [if_neg hat] at ha
        exact qinv a ha
    · intro hii
      obtain ⟨hw, u, hun, hu⟩ := pinv hii
      have hne : u ≠ t := by
        intro he
        rw [he, hpc] at hu
        exact TPc.noConfusion hu
      refine ⟨hw, u, hun, ?_⟩
      rw [setPc_pcs, if_neg hne]
      exact hu
    · intro a b ha
      exact hi
    · intro a hna
      rw [setPc_pcs, if_neg (ne_of_oob a hna t ht)]
      exact oob a hna
  | enter t s0 ht hpc hi =>
    unfold InitInv
    refine ⟨?_, ?_, ?_, ?_, ?_, ?_, ?_, ?_⟩
    · intro a b ha hb
      exact uniq a b (isInit_of_setPc s t TPc.tryClaim rfl a ha) (isInit_of_setPc s t TPc.tryClaim rfl b hb)
    · rw [setPc_first]
      constructor
      · intro hf
        obtain ⟨a, han, ha⟩ := fiff.mp hf
        refine ⟨a, han, isInit_to_setPc s t TPc.tryClaim rfl a ?_ ha⟩
        rw [hpc]
        rfl
      · rintro ⟨a, han, ha⟩
        exact fiff.mpr ⟨a, han, isInit_of_setPc s t TPc.tryClaim rfl a ha⟩
    · exact ftrue
    · intro a i ha
      rw [setPc_pcs] at ha
      by_cases hat : a = t
      · rw [if_pos hat] at ha
        exact TPc.noConfusion ha
      · rw [if_neg hat] at ha
        exact winv a i ha
    · intro a ha
      rw [setPc_pcs] at ha
      by_cases hat : a = t
      · rw [if_pos hat] at ha
        exact TPc.noConfusion ha
      · rw [if_neg hat] at ha
        exact qinv a ha
    · intro hii
      obtain ⟨hw, u, hun, hu⟩ := pinv hii
      have hne : u ≠ t := by
        intro he
        rw [he, hpc] at hu
        exact TPc.noConfusion hu
      refine ⟨hw, u, hun, ?_⟩
      rw [setPc_pcs, if_neg hne]
      exact hu
    · intro a b ha
      rw [setPc_pcs] at ha
      by_cases hat : a = t
      · rw [if_pos hat] at ha
        exact TPc.noConfusion ha
      · rw [if_neg hat] at ha
        exact dinit a b ha
    · intro a hna
      rw [setPc_pcs, if_neg (ne_of_oob a hna t ht)]
      exact oob a hna
  | claimWin t s0 ht hpc hf =>
    have hz := ftrue hf
    have hnone := noInitOfFirst hf
    unfold InitInv
    refine ⟨?_, ?_, ?_, ?_, ?_, ?_, ?_, ?_⟩
    · intro a b ha hb
      simp only [InitState.setPc, Function.update_apply] at ha hb
      by_cases hat : a = t
      · by_cases hbt : b = t
        · rw [hat, hbt]
        · rw [if_neg hbt] at hb
          rw [hnone b] at hb
          exact Bool.noConfusion hb
      · rw [if_neg hat] at ha
        rw [hnone a] at ha
        exact Bool.noConfusion ha
    · simp only [InitState.setPc, Function.update_apply]
      constructor
      · intro _
        refine ⟨t, ht, ?_⟩
        rw [if_pos rfl]
        rfl
      · intro _
        trivial
    · intro hfa
      exact Bool.noConfusion hfa
    · intro a i ha
      simp only [InitState.setPc, Function.update_apply] at ha
      by_cases hat : a = t
      · rw [if_pos hat] at ha
        exact TPc.noConfusion ha
      · rw [if_neg hat] at ha
        have hax : (s.pcs a).isInit = true := by
          rw [ha]
          rfl
        rw [hnone a] at hax
        exact Bool.noConfusion hax
    · intro a ha
      simp only [InitState.setPc, Function.update_apply] at ha
      by_cases hat : a = t
      · exact ⟨hz.2, hz.1⟩
      · rw [if_neg hat] at ha
        have hax : (s.pcs a).isInit = true := by
          rw [ha]
          rfl
        rw [hnone a] at hax
        exact Bool.noConfusion hax
    · intro hii
      simp only [InitState.setPc] at hii
      rw [hz.1] at hii
      exact Bool.noConfusion hii
    · intro a b ha
      simp only [InitState.setPc, Function.update_apply] at ha
      by_cases hat : a = t
      · rw [if_pos hat] at ha
        exact TPc.noConfusion ha
      · rw [if_neg hat] at ha
        exact dinit a b ha
    · intro a hna
      simp only [InitState.setPc, Function.update_apply]
      rw [if_neg (ne_of_oob a hna t ht)]
      exact oob a hna
  | claimLose t s0 ht hpc hf =>
    unfold InitInv
    refine ⟨?_, ?_, ?_, ?_, ?_, ?_, ?_, ?_⟩
    · intro a b ha hb
      exact uniq a b (isInit_of_setPc s t TPc.waiting rfl a ha) (isInit_of_setPc s t TPc.waiting rfl b hb)
    · rw [setPc_first]
      constructor
      · intro hf1
        obtain ⟨a, han, ha⟩ := fiff.mp hf1
        refine ⟨a, han, isInit_to_setPc s t TPc.waiting rfl a ?_ ha⟩
        rw [hpc]
        rfl
      · rintro ⟨a, han, ha⟩
        exact fiff.mpr ⟨a, han, isInit_of_setPc s t TPc.waiting rfl a ha⟩
    · exact ftrue
    · intro a i ha
      rw [setPc_pcs] at ha
      by_cases hat : a = t
      · rw [if_pos hat] at ha
        exact TPc.noConfusion ha
      · rw [if_neg hat] at ha
        exact winv a i ha
    · intro a ha
      rw [setPc_pcs] at ha
      by_cases hat : a = t
      · rw [if_pos hat] at ha
        exact TPc.noConfusion ha
      · rw [if_neg hat] at ha
        exact qinv a ha
    · intro hii
      obtain ⟨hw, u, hun, hu⟩ := pinv hii
      have hne : u ≠ t := by
        intro he
        rw [he, hpc] at hu
        exact TPc.noConfusion hu
      refine ⟨hw, u, hun, ?_⟩
      rw [setPc_pcs, if_neg hne]
      exact hu
    · intro a b ha
      rw [setPc_pcs] at ha
      by_cases hat : a = t
      · rw [if_pos hat] at ha
        exact TPc.noConfusion ha
      · rw [if_neg hat] at ha
        exact dinit a b ha
    · intro a hna
      rw [setPc_pcs, if_neg (ne_of_oob a hna t ht)]
      exact oob a hna
  | countQuery t s0 ht hpc =>
    have hq := qinv t hpc
    have htinit : (s.pcs t).isInit = true := by
      rw [hpc]
      rfl
    have hff : s.first = false := fiff.mpr ⟨t, ht, htinit⟩
    unfold InitInv
    refine ⟨?_, ?_, ?_, ?_, ?_, ?_, ?_, ?_⟩
    · intro a b ha hb
      rw [setPc_pcs] at ha hb
      by_cases hat : a = t
      · by_cases hbt : b = t
        · rw [hat, hbt]
        · rw [if_neg hbt] at hb
          exact absurd (uniq b t hb htinit).symm (Ne.symm hbt)
      · rw [if_neg hat] at ha
        exact absurd (uniq a t ha htinit) hat
    · rw [setPc_first]
      constructor
      · intro _
        refine ⟨t, ht, ?_⟩
        rw [setPc_pcs, if_pos rfl]
        rfl
      · intro _
        exact hff
    · intro hfa
      rw [setPc_first, hff] at hfa
      exact Bool.noConfusion hfa
    · intro a i ha
      rw [setPc_pcs] at ha
      by_cases hat : a = t
      · rw [if_pos hat] at ha
        injection ha with hzero
        exact ⟨by rw [← hzero]; exact Nat.zero_le nd,
               by rw [← hzero]; exact hq.1, hq.2⟩
      · rw [if_neg hat] at ha
        have hax : (s.pcs a).isInit = true := by
          rw [ha]
          rfl
        exact absurd (uniq a t hax htinit) hat
    · intro a ha
      rw [setPc_pcs] at ha
      by_cases hat : a = t
      · rw [if_pos hat] at ha
        exact TPc.noConfusion ha
      · rw [if_neg hat] at ha
        exact qinv a ha
    · intro hii
      rw [setPc_initialized, hq.2] at hii
      exact Bool.noConfusion hii
    · intro a b ha
      rw [setPc_pcs] at ha
      by_cases hat : a = t
      · rw [if_pos hat] at ha
        exact TPc.noConfusion ha
      · rw [if_neg hat] at ha
        exact dinit a b ha
    · intro a hna
      rw [setPc_pcs, if_neg (ne_of_oob a hna t ht)]
      exact oob a hna
  | writeRecord t i s0 ht hpc hlt =>
    have hw := winv t i hpc
    have htinit : (s.pcs t).isInit = true := by
      rw [hpc]
      rfl
    have hff : s.first = false := fiff.mpr ⟨t, ht, htinit⟩
    unfold InitInv
    refine ⟨?_, ?_, ?_, ?_, ?_, ?_, ?_, ?_⟩
    · intro a b ha hb
      simp only [InitState.setPc, Function.update_apply] at ha hb
      by_cases hat : a = t
      · by_cases hbt : b = t
        · rw [hat, hbt]
        · rw [if_neg hbt] at hb
          exact absurd (uniq b t hb htinit).symm (Ne.symm hbt)
      · rw [if_neg hat] at ha
        exact absurd (uniq a t ha htinit) hat
    · simp only [InitState.setPc, Function.update_apply]
      constructor
      · intro _
        refine ⟨t, ht, ?_⟩
        rw [if_pos rfl]
        rfl
      · intro _
        exact hff
    · intro hfa
      simp only [InitState.setPc] at hfa
      rw [hff] at hfa
      exact Bool.noConfusion hfa
    · intro a j ha
      simp only [InitState.setPc, Function.update_apply] at ha
      by_cases hat : a = t
      · rw [if_pos hat] at ha
        injection ha with hsucc
        simp only [InitState.setPc, Function.update_apply]
        refine ⟨?_, ?_, hw.2.2⟩
        · rw [← hsucc]
          exact Nat.succ_le_of_lt hlt
        · rw [← hsucc, hw.2.1]
      · rw [if_neg hat] at ha
        have hax : (s.pcs a).isInit = true := by
          rw [ha]
          rfl
        exact absurd (uniq a t hax htinit) hat
    · intro a ha
      simp only [InitState.setPc, Function.update_apply] at ha
      by_cases hat : a = t
      · rw [if_pos hat] at ha
        exact TPc.noConfusion ha
      · rw [if_neg hat] at ha
        have hax : (s.pcs a).isInit = true := by
          rw [ha]
          rfl
        exact absurd (uniq a t hax htinit) hat
    · intro hii
      simp only [InitState.setPc] at hii
      rw [hw.2.2] at hii
      exact Bool.noConfusion hii
    · intro a b ha
      simp only [InitState.setPc, Function.update_apply] at ha
      by_cases hat : a = t
      · rw [if_pos hat] at ha
        exact TPc.noConfusion ha
      · rw [if_neg hat] at ha
        exact dinit a b ha
    · intro a hna
      simp only [InitState.setPc, Function.update_apply]
      rw [if_neg (ne_of_oob a hna t ht)]
      exact oob a hna
  | publish t s0 ht hpc =>
    have hw := winv t nd hpc
    have htinit : (s.pcs t).isInit = true := by
      rw [hpc]
      rfl
    have hff : s.first = false := fiff.mpr ⟨t, ht, htinit⟩
    unfold InitInv
    refine ⟨?_, ?_, ?_, ?_, ?_, ?_, ?_, ?_⟩
    · intro a b ha hb
      simp only [InitState.setPc, Function.update_apply] at ha hb
      by_cases hat : a = t
      · by_cases hbt : b = t
        · rw [hat, hbt]
        · rw [if_neg hbt] at hb
          exact absurd (uniq b t hb htinit).symm (Ne.symm hbt)
      · rw [if_neg hat] at ha
        exact absurd (uniq a t ha htinit) hat
    · simp only [InitState.setPc, Function.update_apply]
      constructor
      · intro _
        refine ⟨t, ht, ?_⟩
        rw [if_pos rfl]
        rfl
      · intro _
        exact hff
    · intro hfa
      simp only [InitState.setPc] at hfa
      rw [hff] at hfa
      exact Bool.noConfusion hfa
    · intro a j ha
      simp only [InitState.setPc, Function.update_apply] at ha
      by_cases hat : a = t
      · rw [if_pos hat] at ha
        exact TPc.noConfusion ha
      · rw [if_neg hat] at ha
        have hax : (s.pcs a).isInit = true := by
          rw [ha]
          rfl
        exact absurd (uniq a t hax htinit) hat
    · intro a ha
      simp only [InitState.setPc, Function.update_apply] at ha
      by_cases hat : a = t
      · rw [if_pos hat] at ha
        exact TPc.noConfusion ha
      · rw [if_neg hat] at ha
        have hax : (s.pcs a).isInit = true := by
          rw [ha]
          rfl
        exact absurd (uniq a t hax htinit) hat
    · intro _
      simp only [InitState.setPc, Function.update_apply]
      refine ⟨hw.2.1, t, ht, ?_⟩
      rw [if_pos rfl]
    · intro a b ha
      rfl
    · intro a hna
      simp only [InitState.setPc, Function.update_apply]
      rw [if_neg (ne_of_oob a hna t ht)]
      exact oob a hna
  | spin t s0 ht hpc hi =>
    exact ⟨uniq, fiff, ftrue, winv, qinv, pinv, dinit, oob⟩
  | waitDone t s0 ht hpc hi =>
    unfold InitInv
    refine ⟨?_, ?_, ?_, ?_, ?_, ?_, ?_, ?_⟩
    · intro a b ha hb
      exact uniq a b (isInit_of_setPc s t (TPc.done false) rfl a ha) (isInit_of_setPc s t (TPc.done false) rfl b hb)
    · rw [setPc_first]
      constructor
      · intro hf
        obtain ⟨a, han, ha⟩ := fiff.mp hf
        refine ⟨a, han, isInit_to_setPc s t (TPc.done false) rfl a ?_ ha⟩
        rw [hpc]
        rfl
      · rintro ⟨a, han, ha⟩
        exact fiff.mpr ⟨a, han, isInit_of_setPc s t (TPc.done false) rfl a ha⟩
    · exact ftrue
    · intro a i ha
      rw [setPc_pcs] at ha
      by_cases hat : a = t
      · rw [if_pos hat] at ha
        exact TPc.noConfusion ha
      · rw [if_neg hat] at ha
        exact winv a i ha
    · intro a ha
      rw [setPc_pcs] at ha
      by_cases hat : a = t
      · rw [if_pos hat] at ha
        exact TPc.noConfusion ha
      · rw [if_neg hat] at ha
        exact qinv a ha
    · intro hii
      obtain ⟨hw, u, hun, hu⟩ := pinv hii
      have hne : u ≠ t := by
        intro he
        rw [he, hpc] at hu
        exact TPc.noConfusion hu
      refine ⟨hw, u, hun, ?_⟩
      rw [setPc_pcs, if_neg hne]
      exact hu
    · intro a b ha
      exact hi
    · intro a hna
      rw [setPc_pcs, if_neg (ne_of_oob a hna t ht)]
      exact oob a hna

theorem initInv_reachable (n nd : Nat) (s : InitState)
    (h : ReachableInit n nd s) : InitInv n nd s := by
  induction h with
  | init => exact initInv_initial n nd
  | step s1 s2 h1 hs ih => exact initInv_step n nd s1 s2 ih hs

theorem reachable_raceS8 : ReachableInit 2 1 raceS8 := by
  have h0 : ReachableInit 2 1 initStateGpu := ReachableInit.init
  have h1 : ReachableInit 2 1 raceS1 :=
    ReachableInit.step _ _ h0
      (InitStep.enter 0 initStateGpu (by decide) (by decide) (by decide))
  have h2 : ReachableInit 2 1 raceS2 :=
    ReachableInit.step _ _ h1
      (InitStep.enter 1 raceS1 (by decide) (by decide) (by decide))
  have h3 : ReachableInit 2 1 raceS3 :=
    ReachableInit.step _ _ h2
      (InitStep.claimWin 0 raceS2 (by decide) (by decide) (by decide))
  have h4 : ReachableInit 2 1 raceS4 :=
    ReachableInit.step _ _ h3
      (InitStep.claimLose 1 raceS3 (by decide) (by decide) (by decide))
  have h5 : ReachableInit 2 1 raceS5 :=
    ReachableInit.step _ _ h4
      (InitStep.countQuery 0 raceS4 (by decide) (by decide))
  have h6 : ReachableInit 2 1 raceS6 :=
    ReachableInit.step _ _ h5
      (InitStep.writeRecord 0 0 raceS5 (by decide) (by decide) (by decide))
  have h7 : ReachableInit 2 1 raceS7 :=
    ReachableInit.step _ _ h6
      (InitStep.publish 0 raceS6 (by decide) (by decide))
  exact ReachableInit.step _ _ h7
    (InitStep.waitDone 1 raceS7 (by decide) (by decide) (by decide))

/-- C1: in every state the initializeDeviceProp protocol can reach with
n threads and nd visible devices, at most one thread ever wins the
atomic exchange and performs the device-count query and per-device
property-query pass; every thread that has returned did so with the
initialized flag set, and the flag is only set once all nd property
records are written, so no returning thread can observe a partially
written array; the claim flag is taken (the source's atomic `first`
variable, true while unclaimed, has been flipped by the winner) exactly
when an initializer exists; and when all threads have returned there is
exactly one thread that performed the query pass.  Fences are modelled
by the sequentially consistent interleaving semantics of `InitStep`, in
which the release fence before the flag write and the acquire fence of
the spin loop are subsumed by program-order publication. -/
theorem initializeDeviceProp_single_initializer (n nd : Nat) (s : InitState)
    (h : ReachableInit n nd s) :
    (∀ t u, (s.pcs t).isInit = true → (s.pcs u).isInit = true → t = u) ∧
    (∀ t, (s.pcs t).isDone = true → s.initialized = true) ∧
    (s.initialized = true → s.written = nd) ∧
    (s.first = false ↔ ∃ t, t < n ∧ (s.pcs t).isInit = true) ∧
    ((∀ t, t < n → (s.pcs t).isDone = true) → 0 < n →
      ∃ t, t < n ∧ s.pcs t = TPc.done true ∧
        ∀ u, (s.pcs u).isInit = true → u = t) := by
  obtain ⟨uniq, fiff, ftrue, winv, qinv, pinv, dinit, oob⟩ :=
    initInv_reachable n nd s h
  refine ⟨uniq, ?_, fun hi => (pinv hi).1, fiff, ?_⟩
  · intro t hdone
    cases hp : s.pcs t <;> rw [hp] at hdone <;> first
      | exact dinit t _ hp
      | exact Bool.noConfusion hdone
  · intro hall hn
    have h0 := hall 0 hn
    have hi0 : s.initialized = true := by
      cases hp : s.pcs 0 <;> rw [hp] at h0 <;> first
        | exact dinit 0 _ hp
        | exact Bool.noConfusion h0
    obtain ⟨hw, u, hun, hu⟩ := pinv hi0
    refine ⟨u, hun, hu, ?_⟩
    intro v hv
    refine uniq v u hv ?_
    rw [hu]
    rfl

/-- Witness for C1: the theorem applied to the final state of a
concrete completed two-thread run on a one-device machine, in which
thread 0 won the exchange, wrote the single record and published, and
thread 1 lost, spun and returned. -/
theorem initializeDeviceProp_single_initializer_witness :
    (raceS8.initialized = true ∧ raceS8.written = 1 ∧ raceS8.first = false ∧
      raceS8.pcs 0 = TPc.done true ∧ raceS8.pcs 1 = TPc.done false) ∧
    ((∀ t u, (raceS8.pcs t).isInit = true → (raceS8.pcs u).isInit = true → t = u) ∧
     (∀ t, (raceS8.pcs t).isDone = true → raceS8.initialized = true) ∧
     (raceS8.initialized = true → raceS8.written = 1) ∧
     (raceS8.first = false ↔ ∃ t, t < 2 ∧ (raceS8.pcs t).isInit = true) ∧
     ((∀ t, t < 2 → (raceS8.pcs t).isDone = true) → 0 < 2 →
       ∃ t, t < 2 ∧ raceS8.pcs t = TPc.done true ∧
         ∀ u, (raceS8.pcs u).isInit = true → u = t)) :=
  ⟨⟨by decide, by decide, by decide, by decide, by decide⟩,
   initializeDeviceProp_single_initializer 2 1 raceS8 reachable_raceS8⟩

end Eigen
